import Mathlib

/-!
Lean model of the limits service (`services/limits/main.py` and
`services/limits/db.py`): document aggregation, forecast, state
classification, snapshot persistence, the recalculation orchestrator,
the field-change event handler and the simulation endpoint.

Modelling conventions:
* Python floats are modelled as rationals (`ℚ`); every comparison the
  claims exercise is far from a binary-rounding boundary.
* A Mongo document is a record `Doc`; its `date` is the raw string the
  service parses.  Python string `split("-")` and `int(...)` on the date
  are modelled character by character (`splitOnChar`, `digitsToNat`).
* The Postgres stores are modelled as functions: `ConfigStore` maps a
  year to an optional policy row, `SnapStore` maps (tenant, year, month)
  to an optional snapshot row.  `db.get_conn` opens the connection with
  `autocommit=True`, so each monthly `INSERT ... ON CONFLICT` commits on
  its own; a write failure is modelled by the `failAt` parameter of
  `persist_snapshots`: writes before the failing month stay committed,
  the failing and later months are not written, and the error is
  surfaced in the result.
* Event publication (`_publish_event`) is modelled as a list of emitted
  events returned alongside the new state.
-/

namespace Limits

/-- State strings produced by the classifier. -/
def STATE_OK : String := "OK"

def STATE_NEAR_LIMIT : String := "NEAR_LIMIT"

def STATE_AT_LIMIT : String := "AT_LIMIT"

def STATE_EXCEEDED : String := "EXCEEDED"

def EVENT_LIMITS_RECALCULATED : String := "LIMITS_RECALCULATED"

def DEFAULT_ANNUAL_LIMIT : ℚ := 81000

def DEFAULT_WARN_THRESHOLD : ℚ := 4/5

def DEFAULT_CRITICAL_THRESHOLD : ℚ := 1

/-- A document as seen by the limits service: Mongo `_id`, `tenant_id`,
the raw `date` string and `totals.gross_amount`.  An absent optional
string field is modelled as `""` (both are falsy in Python). -/
structure Doc where
  id : String
  tenant_id : String
  date : String
  gross_amount : ℚ
deriving DecidableEq

/-- The Mongo `documents` collection. -/
abbrev DocStore := List Doc

/-- One row of `limit_config` (keyed by year in the store). -/
structure LimitConfig where
  annual_limit : ℚ
  warn : ℚ
  critical : ℚ
deriving DecidableEq

/-- The `limit_config` table: year to optional row. -/
abbrev ConfigStore := Nat → Option LimitConfig

/-- One row of `limits_snapshots` (keyed by tenant, year, month). -/
structure SnapshotRow where
  accumulated : ℚ
  forecast : ℚ
  state : String
deriving DecidableEq

/-- The `limits_snapshots` table: (tenant, year, month) to optional row. -/
abbrev SnapStore := String → Nat → Nat → Option SnapshotRow

/-- An emitted event (`_publish_event` payload of `LIMITS_RECALCULATED`). -/
structure Event where
  name : String
  tenant_id : String
  year : Nat
  state : String
  accumulated : ℚ
deriving DecidableEq

/-- Combined persistent state the service reads and writes. -/
structure SysState where
  docs : DocStore
  configs : ConfigStore
  snaps : SnapStore

/-- Python `str.split(sep)` for a one-character separator, on the
character list of the string. -/
def splitOnChar (c : Char) : List Char → List (List Char)
  | [] => [[]]
  | a :: rest =>
      let r := splitOnChar c rest
      if a = c then [] :: r
      else
        match r with
        | [] => [[a]]
        | g :: gs => (a :: g) :: gs

/-- Python `int(s)` restricted to the non-negative decimal strings the
service feeds it: all-digit, non-empty strings parse, anything else
raises (`none`). -/
def digitsToNat : List Char → Option Nat
  | [] => none
  | cs =>
      if cs.all Char.isDigit then
        some (cs.foldl (fun n ch => n * 10 + (ch.toNat - 48)) 0)
      else none

/-- `_compute_state(ratio, warn, critical)` from `services/limits/main.py`. -/
def compute_state (ratio warn critical : ℚ) : String :=
  if ratio < warn then STATE_OK
  else if ratio < critical then STATE_NEAR_LIMIT
  else if |ratio - 1| ≤ 1/100 then STATE_AT_LIMIT
  else if 1 ≤ ratio then STATE_EXCEEDED
  else STATE_NEAR_LIMIT

/-- `_extract_month(value)`: `None`/empty is falsy; otherwise
`int(value.split("-")[1])`, with `ValueError`/`IndexError` mapped to
`none`. -/
def extract_month (value : String) : Option Nat :=
  if value = "" then none
  else
    match (splitOnChar '-' value.toList).get? 1 with
    | none => none
    | some cs => digitsToNat cs

/-- The ratio expression `max(x, y) / annual_limit if annual_limit else 0.0`
shared by `_persist_snapshots` and `_build_dashboard_payload`. -/
def utilization_ratio (x y annual_limit : ℚ) : ℚ :=
  if annual_limit ≠ 0 then max x y / annual_limit else 0

/-- `_collect_documents(tenant_id, year, doc_ids)`: Mongo filter on
`tenant_id`, optionally `_id ∈ doc_ids` (a `None` or empty list is falsy
and applies no id filter), and `date` matching the regex `^{year}-`. -/
def collect_documents (store : DocStore) (tenant_id : String) (year : Nat)
    (doc_ids : Option (List String)) : List Doc :=
  let idOk : Doc → Bool := fun d =>
    match doc_ids with
    | some ids => if ids.isEmpty then true else ids.contains d.id
    | none => true
  store.filter fun d =>
    d.tenant_id == tenant_id && idOk d &&
      List.isPrefixOf (Nat.toDigits 10 year ++ ['-']) d.date.toList

/-- The `defaultdict(float)` of monthly totals, as an association list in
insertion order; `bumpMonth` is `monthly_totals[month] += amount`. -/
def bumpMonth (mt : List (Nat × ℚ)) (m : Nat) (amount : ℚ) : List (Nat × ℚ) :=
  match mt with
  | [] => [(m, amount)]
  | (k, v) :: rest =>
      if k = m then (k, v + amount) :: rest
      else (k, v) :: bumpMonth rest m amount

/-- `monthly_totals.get(m, 0.0)`. -/
def mtGet (mt : List (Nat × ℚ)) (m : Nat) : ℚ :=
  match mt.lookup m with
  | some v => v
  | none => 0

/-- The aggregation loop of `_summaries_from_documents`: for each
document, add `gross_amount` under its extracted month; a document whose
month is `None` or `0` (both falsy) is dropped. -/
def buildMonthlyTotals (docs : List Doc) : List (Nat × ℚ) :=
  docs.foldl
    (fun mt doc =>
      match extract_month doc.date with
      | some month => if month ≠ 0 then bumpMonth mt month doc.gross_amount else mt
      | none => mt)
    []

/-- `len([v for v in monthly_totals.values() if v > 0]) or today.month`. -/
def monthsWithData (mt : List (Nat × ℚ)) (todayMonth : Nat) : Nat :=
  let c := (mt.filter fun p => 0 < p.2).length
  if c = 0 then todayMonth else c

/-- Result record of `_summaries_from_documents`. -/
structure Summary where
  monthly_totals : List (Nat × ℚ)
  accumulated : ℚ
  forecast : ℚ
deriving DecidableEq

/-- `_summaries_from_documents(docs)`; `todayMonth` is
`dt.date.today().month`, used only as the zero-months fallback. -/
def summaries_from_documents (docs : List Doc) (todayMonth : Nat) : Summary :=
  let mt := buildMonthlyTotals docs
  let accumulated := (mt.map Prod.snd).sum
  let mwd := monthsWithData mt todayMonth
  let forecast := if mwd ≠ 0 then (accumulated / (mwd : ℚ)) * 12 else 0
  ⟨mt, accumulated, forecast⟩

/-- `_get_limit_config(year)`: return the stored row, or insert the
defaults (`ON CONFLICT DO NOTHING`) and return them. -/
def get_limit_config (cs : ConfigStore) (year : Nat) : LimitConfig × ConfigStore :=
  match cs year with
  | some row => (row, cs)
  | none =>
      let d : LimitConfig :=
        ⟨DEFAULT_ANNUAL_LIMIT, DEFAULT_WARN_THRESHOLD, DEFAULT_CRITICAL_THRESHOLD⟩
      (d, fun y => if y = year then some d else cs y)

/-- The `DashboardResponse` pydantic model: `threshold` is its two
entries, `months` the ordered list of `{month, value}` dicts. -/
structure DashboardResponse where
  accumulated : ℚ
  forecast : ℚ
  state : String
  threshold_warn : ℚ
  threshold_critical : ℚ
  months : List (Nat × ℚ)
deriving DecidableEq

/-- `_build_dashboard_payload(tenant_id, year, monthly_totals,
accumulated, forecast)`; returns the response together with the config
store, which `_get_limit_config` may have extended with the default
row. -/
def build_dashboard_payload (cs : ConfigStore) (year : Nat)
    (mt : List (Nat × ℚ)) (accumulated forecast : ℚ) :
    DashboardResponse × ConfigStore :=
  let p := get_limit_config cs year
  let config := p.1
  let ratio := utilization_ratio accumulated forecast config.annual_limit
  let state := compute_state ratio config.warn config.critical
  let months := (List.range' 1 12).map fun m => (m, mtGet mt m)
  (⟨accumulated, forecast, state, config.warn, config.critical, months⟩, p.2)

/-- Result of `_persist_snapshots`: the snapshot store after the run and
the month whose write raised, if any.  With `autocommit=True`
(`services/limits/db.py`) every earlier `INSERT` is already committed
when a later one fails. -/
structure PersistResult where
  store : SnapStore
  failedAt : Option Nat

/-- Upsert of one `limits_snapshots` row (`INSERT ... ON CONFLICT ...
DO UPDATE`). -/
def upsertSnap (s : SnapStore) (tenant : String) (year month : Nat)
    (row : SnapshotRow) : SnapStore :=
  fun t y m => if t = tenant ∧ y = year ∧ m = month then some row else s t y m

/-- The `for month in range(1, 13)` loop body of `_persist_snapshots`,
over an explicit month list, carrying `cumulative`.  `failAt = some k`
injects a write failure at month `k`: the write for `k` does not happen
and the loop aborts, leaving the earlier autocommitted writes in
place. -/
def persistLoop (failAt : Option Nat) (tenant : String) (year : Nat)
    (mt : List (Nat × ℚ)) (forecast : ℚ) (config : LimitConfig) :
    List Nat → ℚ → SnapStore → PersistResult
  | [], _, s => ⟨s, none⟩
  | month :: rest, cumulative, s =>
      let cumulative := cumulative + mtGet mt month
      if failAt = some month then ⟨s, some month⟩
      else
        let ratio := utilization_ratio cumulative forecast config.annual_limit
        let state := compute_state ratio config.warn config.critical
        persistLoop failAt tenant year mt forecast config rest cumulative
          (upsertSnap s tenant year month ⟨cumulative, forecast, state⟩)

/-- `_persist_snapshots(tenant_id, year, monthly_totals, forecast,
config)` against store `s`. -/
def persist_snapshots (failAt : Option Nat) (tenant : String) (year : Nat)
    (mt : List (Nat × ℚ)) (forecast : ℚ) (config : LimitConfig)
    (s : SnapStore) : PersistResult :=
  persistLoop failAt tenant year mt forecast config (List.range' 1 12) 0 s

/-- `recalc_limits(tenant_id, year, doc_ids)` with an injected
persistence failure mode: collect, aggregate, read config, persist,
build the dashboard, emit `LIMITS_RECALCULATED`.  A persistence failure
propagates (`error` month), in which case no dashboard is built and no
event is emitted, but the autocommitted partial writes remain. -/
def recalc_limits_with (failAt : Option Nat) (st : SysState)
    (tenant_id : String) (year : Nat) (doc_ids : Option (List String))
    (todayMonth : Nat) :
    Except Nat DashboardResponse × SysState × List Event :=
  let docs := collect_documents st.docs tenant_id year doc_ids
  let summary := summaries_from_documents docs todayMonth
  let pc := get_limit_config st.configs year
  let pr := persist_snapshots failAt tenant_id year summary.monthly_totals
    summary.forecast pc.1 st.snaps
  match pr.failedAt with
  | some k => (.error k, ⟨st.docs, pc.2, pr.store⟩, [])
  | none =>
      let pd := build_dashboard_payload pc.2 year summary.monthly_totals
        summary.accumulated summary.forecast
      (.ok pd.1, ⟨st.docs, pd.2, pr.store⟩,
        [⟨EVENT_LIMITS_RECALCULATED, tenant_id, year, pd.1.state, pd.1.accumulated⟩])

/-- `recalc_limits` as written (no write failure). -/
def recalc_limits (st : SysState) (tenant_id : String) (year : Nat)
    (doc_ids : Option (List String)) (todayMonth : Nat) :
    Except Nat DashboardResponse × SysState × List Event :=
  recalc_limits_with none st tenant_id year doc_ids todayMonth

/-- Return record of the `fields_updated` Celery task. -/
structure FUResult where
  status : String
  reason : Option String
  state : Option String
deriving DecidableEq

/-- `documents_collection.find_one({"_id": str(doc_id)})`. -/
def findOne (store : DocStore) (doc_id : String) : Option Doc :=
  store.find? fun d => d.id == doc_id

/-- The `fields_updated` event handler.  `payloadDocId` is
`payload.get("doc_id")` (with `""` and `none` both falsy);
`todayIso` is `dt.date.today().isoformat()`, the default date.  `int`
on an unparseable year raises, modelled as `.error`; a persistence
failure inside `recalc_limits` also propagates. -/
def fields_updated (failAt : Option Nat) (st : SysState)
    (payloadDocId : Option String) (todayIso : String) (todayMonth : Nat) :
    Except String (FUResult × SysState × List Event) :=
  match payloadDocId with
  | none => .ok (⟨"ignored", some "missing doc_id", none⟩, st, [])
  | some doc_id =>
      if doc_id = "" then .ok (⟨"ignored", some "missing doc_id", none⟩, st, [])
      else
        match findOne st.docs doc_id with
        | none => .ok (⟨"ignored", some "document not found", none⟩, st, [])
        | some doc =>
            let dateStr := if doc.date = "" then todayIso else doc.date
            match digitsToNat ((splitOnChar '-' dateStr.toList).headD []) with
            | none => .error "ValueError"
            | some year =>
                let tenant_id := if doc.tenant_id = "" then "default" else doc.tenant_id
                match recalc_limits_with failAt st tenant_id year (some [doc_id]) todayMonth with
                | (.error _, _, _) => .error "persist failure"
                | (.ok d, st2, evs) =>
                    .ok (⟨"recalculated", none, some d.state⟩, st2, evs)

/-- The `GET /limits/{year}/dashboard` endpoint: collect all of the
tenant's documents for the year, aggregate, build the payload (which may
lazily create the default policy row). -/
def dashboard (st : SysState) (year : Nat) (tenant_id : String)
    (todayMonth : Nat) : DashboardResponse × SysState :=
  let docs := collect_documents st.docs tenant_id year none
  let summary := summaries_from_documents docs todayMonth
  let pd := build_dashboard_payload st.configs year summary.monthly_totals
    summary.accumulated summary.forecast
  (pd.1, ⟨st.docs, pd.2, st.snaps⟩)

/-- One `SimulationAdjustment` (`month` is pydantic-validated into
1..12). -/
structure SimAdjustment where
  month : Nat
  delta : ℚ
deriving DecidableEq

/-- The `POST /limits/simulate` endpoint: aggregate the real documents,
overlay the adjustments, recompute accumulated / months-with-data /
forecast with the same formulas, and build the dashboard payload.  It
never touches the snapshot store and emits no event. -/
def simulate (st : SysState) (tenant_id : String) (year : Nat)
    (adjustments : List SimAdjustment) (doc_ids : Option (List String))
    (todayMonth : Nat) : DashboardResponse × SysState :=
  let docs := collect_documents st.docs tenant_id year doc_ids
  let summary := summaries_from_documents docs todayMonth
  let mt := adjustments.foldl (fun mt adj => bumpMonth mt adj.month adj.delta)
    summary.monthly_totals
  let accumulated := (mt.map Prod.snd).sum
  let mwd := monthsWithData mt todayMonth
  let forecast := if mwd ≠ 0 then (accumulated / (mwd : ℚ)) * 12 else 0
  let pd := build_dashboard_payload st.configs year mt accumulated forecast
  (pd.1, ⟨st.docs, pd.2, st.snaps⟩)

/-- Cumulative total of the monthly map through month `m` (the value the
persist loop has accumulated after processing months `1..m`). -/
def cumThrough (mt : List (Nat × ℚ)) (m : Nat) : ℚ :=
  ((List.range' 1 m).map (mtGet mt)).sum

/-- The snapshot row `_persist_snapshots` writes for month `m` in a run
with monthly map `mt`, forecast `f` and config `cfg`. -/
def rowAt (mt : List (Nat × ℚ)) (f : ℚ) (cfg : LimitConfig) (m : Nat) :
    SnapshotRow :=
  ⟨cumThrough mt m, f,
    compute_state (utilization_ratio (cumThrough mt m) f cfg.annual_limit)
      cfg.warn cfg.critical⟩

/-- Amount a single document contributes to the monthly map: its gross
amount when its month extracts to a truthy value, else nothing. -/
def countedAmount (d : Doc) : ℚ :=
  match extract_month d.date with
  | some m => if m ≠ 0 then d.gross_amount else 0
  | none => 0

/-- Total contributed to month `m` by a document list: the sum of gross
amounts of the documents whose date extracts to month `m`. -/
def monthDelta (docs : List Doc) (m : Nat) : ℚ :=
  ((docs.filter fun d => extract_month d.date == some m).map Doc.gross_amount).sum

/-! ### Lemmas about the monthly-totals association list -/

theorem mtGet_nil (m : Nat) : mtGet [] m = 0 := rfl

theorem mtGet_cons (k : Nat) (v : ℚ) (rest : List (Nat × ℚ)) (m : Nat) :
    mtGet ((k, v) :: rest) m = if m = k then v else mtGet rest m := by
  simp only [mtGet, List.lookup]
  by_cases h : m = k
  · simp [h]
  · simp [h, beq_false_of_ne h]

theorem mtGet_bumpMonth (mt : List (Nat × ℚ)) (k : Nat) (a : ℚ) (m : Nat) :
    mtGet (bumpMonth mt k a) m = if m = k then mtGet mt m + a else mtGet mt m := by
  induction mt with
  | nil =>
      by_cases h : m = k <;> simp [bumpMonth, mtGet_cons, mtGet_nil, h]
  | cons p rest ih =>
      obtain ⟨k0, v0⟩ := p
      by_cases hk : k0 = k
      · subst hk
        by_cases h : m = k0 <;> simp [bumpMonth, mtGet_cons, h]
      · by_cases h : m = k0
        · subst h
          simp [bumpMonth, hk, mtGet_cons, Ne.symm hk]
        · simp [bumpMonth, hk, mtGet_cons, h, ih]

theorem sum_bumpMonth (mt : List (Nat × ℚ)) (k : Nat) (a : ℚ) :
    ((bumpMonth mt k a).map Prod.snd).sum = (mt.map Prod.snd).sum + a := by
  induction mt with
  | nil => simp [bumpMonth]
  | cons p rest ih =>
      obtain ⟨k0, v0⟩ := p
      simp only [bumpMonth]
      by_cases hk : k0 = k
      · simp [hk, add_assoc, add_comm a]
      · simp only [if_neg hk, List.map_cons, List.sum_cons, ih]
        ring

theorem mtGet_buildMonthlyTotals_aux (m : Nat) (hm : m ≠ 0) (docs : List Doc) :
    ∀ mt : List (Nat × ℚ),
      mtGet (docs.foldl
        (fun mt doc =>
          match extract_month doc.date with
          | some month => if month ≠ 0 then bumpMonth mt month doc.gross_amount else mt
          | none => mt) mt) m = mtGet mt m + monthDelta docs m := by
  induction docs with
  | nil => intro mt; simp [monthDelta]
  | cons d rest ih =>
      intro mt
      simp only [List.foldl_cons]
      rw [ih]
      rcases hx : extract_month d.date with _ | month
      · simp [monthDelta, hx]
      · by_cases hz : month = 0
        · subst hz
          have : (extract_month d.date == some m) = false := by
            simp [hx, Ne.symm hm]
          simp [monthDelta, this, hx, List.filter_cons, Ne.symm hm]
        · simp only [hz, ne_eq, not_false_eq_true, if_true, mtGet_bumpMonth]
          by_cases hmm : m = month
          · subst hmm
            have : (extract_month d.date == some m) = true := by simp [hx]
            simp only [monthDelta] at *
            simp [this, List.filter_cons, add_assoc, add_comm d.gross_amount]
          · have : (extract_month d.date == some m) = false := by
              simp [hx, Ne.symm hmm]
            simp only [monthDelta] at *
            simp [this, List.filter_cons, hmm]

/-- The monthly map built by the aggregation loop reads back, at any
truthy month, exactly the sum of the gross amounts of the documents
dated in that month. -/
theorem mtGet_buildMonthlyTotals (docs : List Doc) (m : Nat) (hm : m ≠ 0) :
    mtGet (buildMonthlyTotals docs) m = monthDelta docs m := by
  have h := mtGet_buildMonthlyTotals_aux m hm docs []
  simpa [buildMonthlyTotals, mtGet_nil] using h

theorem sum_buildMonthlyTotals_aux (docs : List Doc) :
    ∀ mt : List (Nat × ℚ),
      (((docs.foldl
        (fun mt doc =>
          match extract_month doc.date with
          | some month => if month ≠ 0 then bumpMonth mt month doc.gross_amount else mt
          | none => mt) mt)).map Prod.snd).sum =
      (mt.map Prod.snd).sum + (docs.map countedAmount).sum := by
  induction docs with
  | nil => intro mt; simp
  | cons d rest ih =>
      intro mt
      simp only [List.foldl_cons]
      rw [ih]
      rcases hx : extract_month d.date with _ | month
      · simp [countedAmount, hx]
      · by_cases hz : month = 0
        · subst hz
          simp [countedAmount, hx]
        · simp [countedAmount, hx, hz, sum_bumpMonth, add_assoc,
            add_comm d.gross_amount]

/-- `accumulated` is the sum of every document's counted contribution. -/
theorem sum_buildMonthlyTotals (docs : List Doc) :
    ((buildMonthlyTotals docs).map Prod.snd).sum = (docs.map countedAmount).sum := by
  have h := sum_buildMonthlyTotals_aux docs []
  simpa [buildMonthlyTotals] using h

theorem monthDelta_nonneg (docs : List Doc) (m : Nat)
    (h : ∀ d ∈ docs, 0 ≤ d.gross_amount) : 0 ≤ monthDelta docs m := by
  refine List.sum_nonneg ?_
  intro x hx
  simp only [List.mem_map] at hx
  obtain ⟨d, hd, rfl⟩ := hx
  exact h d (List.mem_of_mem_filter hd)

/-! ### Lemmas about the cumulative totals -/

theorem cumThrough_zero (mt : List (Nat × ℚ)) : cumThrough mt 0 = 0 := rfl

theorem cumThrough_succ (mt : List (Nat × ℚ)) (m : Nat) :
    cumThrough mt (m + 1) = cumThrough mt m + mtGet mt (m + 1) := by
  simp [cumThrough, List.range'_concat, Nat.add_comm 1 m]

theorem cumThrough_mono (mt : List (Nat × ℚ))
    (h : ∀ k, 1 ≤ k → 0 ≤ mtGet mt k) :
    ∀ m m2 : Nat, m ≤ m2 → cumThrough mt m ≤ cumThrough mt m2 := by
  intro m m2 hle
  induction m2 with
  | zero => simp_all
  | succ n ih =>
      rcases Nat.lt_or_ge m (n + 1) with hlt | hge
      · have := ih (Nat.lt_succ_iff.mp hlt)
        calc cumThrough mt m ≤ cumThrough mt n := this
          _ ≤ cumThrough mt n + mtGet mt (n + 1) := by
              have := h (n + 1) (by omega); linarith
          _ = cumThrough mt (n + 1) := (cumThrough_succ mt n).symm
      · have : m = n + 1 := le_antisymm hle hge
        simp [this]

/-! ### Lemmas about the policy store -/

theorem get_limit_config_stable (cs : ConfigStore) (y : Nat) :
    get_limit_config (get_limit_config cs y).2 y =
      ((get_limit_config cs y).1, (get_limit_config cs y).2) := by
  rcases h : cs y with _ | row
  · simp [get_limit_config, h]
  · simp [get_limit_config, h]

theorem get_limit_config_fst_congr (cs cs2 : ConfigStore) (y : Nat)
    (h : cs y = cs2 y) :
    (get_limit_config cs y).1 = (get_limit_config cs2 y).1 := by
  rcases hy : cs y with _ | row <;> simp [get_limit_config, hy, h.symm.trans hy]

theorem get_limit_config_snd_other (cs : ConfigStore) (y y2 : Nat)
    (h : y2 ≠ y) : (get_limit_config cs y).2 y2 = cs y2 := by
  rcases hy : cs y with _ | row <;> simp [get_limit_config, hy, h]

/-! ### Closed form of the persistence loop -/

theorem persistLoop_none_failedAt (tenant : String) (year : Nat)
    (mt : List (Nat × ℚ)) (f : ℚ) (cfg : LimitConfig) :
    ∀ (months : List Nat) (c : ℚ) (s : SnapStore),
      (persistLoop none tenant year mt f cfg months c s).failedAt = none := by
  intro months
  induction months with
  | nil => intro c s; rfl
  | cons month rest ih => intro c s; simp [persistLoop, ih]

theorem persistLoop_none_store (tenant : String) (year : Nat)
    (mt : List (Nat × ℚ)) (f : ℚ) (cfg : LimitConfig) :
    ∀ (n j : Nat) (s : SnapStore) (t : String) (y m : Nat),
      (persistLoop none tenant year mt f cfg (List.range' (j + 1) n)
        (cumThrough mt j) s).store t y m =
      if t = tenant ∧ y = year ∧ j + 1 ≤ m ∧ m ≤ j + n then some (rowAt mt f cfg m)
      else s t y m := by
  intro n
  induction n with
  | zero =>
      intro j s t y m
      have hfalse : ¬(t = tenant ∧ y = year ∧ j + 1 ≤ m ∧ m ≤ j + 0) := by
        rintro ⟨-, -, h1, h2⟩
        omega
      rw [if_neg hfalse]
      rfl
  | succ n ih =>
      intro j s t y m
      rw [List.range'_succ]
      have hc : cumThrough mt j + mtGet mt (j + 1) = cumThrough mt (j + 1) :=
        (cumThrough_succ mt j).symm
      have hne : ((none : Option Nat) = some (j + 1)) = False := by simp
      simp only [persistLoop, hc, hne, if_false]
      rw [ih (j + 1)]
      simp only [upsertSnap]
      by_cases hA : t = tenant ∧ y = year
      · obtain ⟨ht, hy⟩ := hA
        by_cases hm2 : m = j + 1
        · have hC1 : ¬(t = tenant ∧ y = year ∧ j + 1 + 1 ≤ m ∧ m ≤ j + 1 + n) := by
            rintro ⟨-, -, ha, -⟩
            omega
          have hC2 : t = tenant ∧ y = year ∧ m = j + 1 := ⟨ht, hy, hm2⟩
          have hC3 : t = tenant ∧ y = year ∧ j + 1 ≤ m ∧ m ≤ j + (n + 1) :=
            ⟨ht, hy, by omega, by omega⟩
          rw [if_neg hC1, if_pos hC2, if_pos hC3, hm2]
          rfl
        · by_cases hm1 : j + 1 + 1 ≤ m ∧ m ≤ j + 1 + n
          · have hC1 : t = tenant ∧ y = year ∧ j + 1 + 1 ≤ m ∧ m ≤ j + 1 + n :=
              ⟨ht, hy, hm1.1, hm1.2⟩
            have hC3 : t = tenant ∧ y = year ∧ j + 1 ≤ m ∧ m ≤ j + (n + 1) :=
              ⟨ht, hy, by omega, by omega⟩
            rw [if_pos hC1, if_pos hC3]
          · have hC1 : ¬(t = tenant ∧ y = year ∧ j + 1 + 1 ≤ m ∧ m ≤ j + 1 + n) :=
              fun h => hm1 ⟨h.2.2.1, h.2.2.2⟩
            have hC2 : ¬(t = tenant ∧ y = year ∧ m = j + 1) :=
              fun h => hm2 h.2.2
            have hC3 : ¬(t = tenant ∧ y = year ∧ j + 1 ≤ m ∧ m ≤ j + (n + 1)) := by
              rintro ⟨-, -, ha, hb⟩
              exact hm1 ⟨by omega, by omega⟩
            rw [if_neg hC1, if_neg hC2, if_neg hC3]
      · have h1 : ¬(t = tenant ∧ y = year ∧ j + 1 + 1 ≤ m ∧ m ≤ j + 1 + n) :=
          fun h => hA ⟨h.1, h.2.1⟩
        have h2 : ¬(t = tenant ∧ y = year ∧ m = j + 1) :=
          fun h => hA ⟨h.1, h.2.1⟩
        have h3 : ¬(t = tenant ∧ y = year ∧ j + 1 ≤ m ∧ m ≤ j + (n + 1)) :=
          fun h => hA ⟨h.1, h.2.1⟩
        rw [if_neg h1, if_neg h2, if_neg h3]

theorem persistLoop_some_spec (tenant : String) (year : Nat)
    (mt : List (Nat × ℚ)) (f : ℚ) (cfg : LimitConfig) (k : Nat) :
    ∀ (n j : Nat) (s : SnapStore), j + 1 ≤ k → k ≤ j + n →
      (persistLoop (some k) tenant year mt f cfg (List.range' (j + 1) n)
        (cumThrough mt j) s).failedAt = some k ∧
      ∀ (t : String) (y m : Nat),
        (persistLoop (some k) tenant year mt f cfg (List.range' (j + 1) n)
          (cumThrough mt j) s).store t y m =
        if t = tenant ∧ y = year ∧ j + 1 ≤ m ∧ m < k then some (rowAt mt f cfg m)
        else s t y m := by
  intro n
  induction n with
  | zero =>
      intro j s hjk hkn
      omega
  | succ n ih =>
      intro j s hjk hkn
      rw [List.range'_succ]
      have hc : cumThrough mt j + mtGet mt (j + 1) = cumThrough mt (j + 1) :=
        (cumThrough_succ mt j).symm
      by_cases hk : k = j + 1
      · subst hk
        have hcond : ((some (j + 1) : Option Nat) = some (j + 1)) = True := by simp
        simp only [persistLoop, hc, hcond, if_true]
        refine ⟨trivial, ?_⟩
        intro t y m
        have hfalse : ¬(t = tenant ∧ y = year ∧ j + 1 ≤ m ∧ m < j + 1) := by
          rintro ⟨-, -, h1, h2⟩
          omega
        rw [if_neg hfalse]
      · have hcond : ((some k : Option Nat) = some (j + 1)) = False := by simp [hk]
        simp only [persistLoop, hc, hcond, if_false]
        have hjk2 : j + 1 + 1 ≤ k := by omega
        have hkn2 : k ≤ j + 1 + n := by omega
        obtain ⟨hfail, hstore⟩ := ih (j + 1)
          (upsertSnap s tenant year (j + 1)
            ⟨cumThrough mt (j + 1), f,
              compute_state
                (utilization_ratio (cumThrough mt (j + 1)) f cfg.annual_limit)
                cfg.warn cfg.critical⟩) hjk2 hkn2
        refine ⟨hfail, ?_⟩
        intro t y m
        rw [hstore]
        simp only [upsertSnap]
        by_cases hA : t = tenant ∧ y = year
        · obtain ⟨ht, hy⟩ := hA
          by_cases hm2 : m = j + 1
          · have hC1 : ¬(t = tenant ∧ y = year ∧ j + 1 + 1 ≤ m ∧ m < k) := by
              rintro ⟨-, -, ha, -⟩
              omega
            have hC2 : t = tenant ∧ y = year ∧ m = j + 1 := ⟨ht, hy, hm2⟩
            have hC3 : t = tenant ∧ y = year ∧ j + 1 ≤ m ∧ m < k :=
              ⟨ht, hy, by omega, by omega⟩
            rw [if_neg hC1, if_pos hC2, if_pos hC3, hm2]
            rfl
          · by_cases hm1 : j + 1 + 1 ≤ m ∧ m < k
            · have hC1 : t = tenant ∧ y = year ∧ j + 1 + 1 ≤ m ∧ m < k :=
                ⟨ht, hy, hm1.1, hm1.2⟩
              have hC3 : t = tenant ∧ y = year ∧ j + 1 ≤ m ∧ m < k :=
                ⟨ht, hy, by omega, by omega⟩
              rw [if_pos hC1, if_pos hC3]
            · have hC1 : ¬(t = tenant ∧ y = year ∧ j + 1 + 1 ≤ m ∧ m < k) :=
                fun h => hm1 ⟨h.2.2.1, h.2.2.2⟩
              have hC2 : ¬(t = tenant ∧ y = year ∧ m = j + 1) :=
                fun h => hm2 h.2.2
              have hC3 : ¬(t = tenant ∧ y = year ∧ j + 1 ≤ m ∧ m < k) := by
                rintro ⟨-, -, ha, hb⟩
                exact hm1 ⟨by omega, by omega⟩
              rw [if_neg hC1, if_neg hC2, if_neg hC3]
        · have h1 : ¬(t = tenant ∧ y = year ∧ j + 1 + 1 ≤ m ∧ m < k) :=
            fun h => hA ⟨h.1, h.2.1⟩
          have h2 : ¬(t = tenant ∧ y = year ∧ m = j + 1) :=
            fun h => hA ⟨h.1, h.2.1⟩
          have h3 : ¬(t = tenant ∧ y = year ∧ j + 1 ≤ m ∧ m < k) :=
            fun h => hA ⟨h.1, h.2.1⟩
          rw [if_neg h1, if_neg h2, if_neg h3]

/-- Closed form of a successful `_persist_snapshots` run: exactly the
rows for months `1..12` of the given tenant and year are upserted to the
run's values; every other row is untouched. -/
theorem persist_snapshots_store (tenant : String) (year : Nat)
    (mt : List (Nat × ℚ)) (f : ℚ) (cfg : LimitConfig) (s : SnapStore)
    (t : String) (y m : Nat) :
    (persist_snapshots none tenant year mt f cfg s).store t y m =
      if t = tenant ∧ y = year ∧ 1 ≤ m ∧ m ≤ 12 then some (rowAt mt f cfg m)
      else s t y m := by
  have h := persistLoop_none_store tenant year mt f cfg 12 0 s t y m
  simpa [persist_snapshots, cumThrough_zero] using h

theorem persist_snapshots_none_failedAt (tenant : String) (year : Nat)
    (mt : List (Nat × ℚ)) (f : ℚ) (cfg : LimitConfig) (s : SnapStore) :
    (persist_snapshots none tenant year mt f cfg s).failedAt = none :=
  persistLoop_none_failedAt tenant year mt f cfg _ _ s

/-- Closed form of a `_persist_snapshots` run whose write for month `k`
(`1 ≤ k ≤ 12`) raises: the autocommitted rows for months `1..k-1` are
already durable, months `k..12` are untouched, and the failure
surfaces. -/
theorem persist_snapshots_fail (tenant : String) (year : Nat)
    (mt : List (Nat × ℚ)) (f : ℚ) (cfg : LimitConfig) (s : SnapStore)
    (k : Nat) (hk1 : 1 ≤ k) (hk12 : k ≤ 12) :
    (persist_snapshots (some k) tenant year mt f cfg s).failedAt = some k ∧
    ∀ (t : String) (y m : Nat),
      (persist_snapshots (some k) tenant year mt f cfg s).store t y m =
        if t = tenant ∧ y = year ∧ 1 ≤ m ∧ m < k then some (rowAt mt f cfg m)
        else s t y m := by
  have h := persistLoop_some_spec tenant year mt f cfg k 12 0 s (by omega) (by omega)
  obtain ⟨h1, h2⟩ := h
  constructor
  · simpa [persist_snapshots, cumThrough_zero] using h1
  · intro t y m
    have := h2 t y m
    simpa [persist_snapshots, cumThrough_zero] using this

/-! ### Example stores used by concrete instances -/

/-- An empty `limit_config` table. -/
def emptyConfigs : ConfigStore := fun _ => none

/-- An empty `limits_snapshots` table. -/
def emptySnaps : SnapStore := fun _ _ _ => none

/-! ### Claim C2: the AT_LIMIT tolerance band -/

/-- C2, counterexample: the claim says every ratio within `0.01` of `1.0`
classifies as AT_LIMIT regardless of side; but with the default
thresholds (warn `0.8 ≤` critical `1.0`) the ratio `0.995` is inside the
band yet below `critical`, so `_compute_state` answers NEAR_LIMIT. -/
theorem c2_band_below_critical_not_at_limit :
    (4 : ℚ)/5 ≤ 1 ∧ |(199 : ℚ)/200 - 1| ≤ 1/100 ∧
      compute_state ((199 : ℚ)/200) (4/5) 1 = STATE_NEAR_LIMIT ∧
      STATE_NEAR_LIMIT ≠ STATE_AT_LIMIT := by
  refine ⟨by norm_num, by norm_num [abs_le], ?_, by decide⟩
  norm_num [compute_state]

/-- C2, amended: with `warn ≤ critical`, `_compute_state` returns
AT_LIMIT exactly when the ratio is at least `critical` AND within `0.01`
of `1.0` — the tolerance band is reachable only from at or above the
critical threshold, not from below it. -/
theorem c2_at_limit_iff (warn critical r : ℚ) (h : warn ≤ critical) :
    compute_state r warn critical = STATE_AT_LIMIT ↔
      critical ≤ r ∧ |r - 1| ≤ 1/100 := by
  unfold compute_state
  split_ifs with h1 h2 h3 h4
  · constructor
    · intro hx
      exact absurd hx (by decide)
    · rintro ⟨hc, -⟩
      linarith
  · constructor
    · intro hx
      exact absurd hx (by decide)
    · rintro ⟨hc, -⟩
      linarith
  · constructor
    · intro _
      exact ⟨not_lt.mp h2, h3⟩
    · intro _
      rfl
  · constructor
    · intro hx
      exact absurd hx (by decide)
    · rintro ⟨-, hb⟩
      exact absurd hb h3
  · constructor
    · intro hx
      exact absurd hx (by decide)
    · rintro ⟨-, hb⟩
      exact absurd hb h3

/-- Witness for the amended C2 at warn `0.8`, critical `1.0`,
ratio `1.0`. -/
theorem c2_at_limit_iff_witness :
    compute_state 1 ((4 : ℚ)/5) 1 = STATE_AT_LIMIT :=
  (c2_at_limit_iff ((4 : ℚ)/5) 1 1 (by norm_num)).mpr
    ⟨le_refl 1, by norm_num⟩

/-! ### Claim C8: annualLimit = 0 -/

/-- C8: when `annual_limit = 0` the guarded ratio expression evaluates
to `0` without dividing, and (given a positive warn threshold) the
classifier answers OK. -/
theorem c8_zero_limit_is_ok (accumulated forecast warn critical : ℚ)
    (hw : 0 < warn) :
    utilization_ratio accumulated forecast 0 = 0 ∧
      compute_state (utilization_ratio accumulated forecast 0) warn critical =
        STATE_OK := by
  have hr : utilization_ratio accumulated forecast 0 = 0 := by
    simp [utilization_ratio]
  refine ⟨hr, ?_⟩
  rw [hr]
  unfold compute_state
  rw [if_pos hw]

/-- Witness for C8 at accumulated `5`, forecast `7`, default
thresholds. -/
theorem c8_zero_limit_is_ok_witness :
    (0 : ℚ) < 4/5 ∧
      (utilization_ratio 5 7 0 = 0 ∧
        compute_state (utilization_ratio 5 7 0) ((4 : ℚ)/5) 1 = STATE_OK) :=
  ⟨by norm_num, c8_zero_limit_is_ok 5 7 ((4 : ℚ)/5) 1 (by norm_num)⟩

/-! ### Claim C7: the four-month 40000 scenario -/

/-- C7: four documents of 10000 each, dated in four distinct (truthy)
months, aggregate to accumulated 40000 over 4 months with data, a
linear forecast of 120000, and the default policy classifies the
resulting ratio as EXCEEDED. -/
theorem c7_forty_thousand_scenario (s1 s2 s3 s4 : String)
    (m1 m2 m3 m4 : Nat) (tm : Nat)
    (h1 : extract_month s1 = some m1) (h2 : extract_month s2 = some m2)
    (h3 : extract_month s3 = some m3) (h4 : extract_month s4 = some m4)
    (hz1 : m1 ≠ 0) (hz2 : m2 ≠ 0) (hz3 : m3 ≠ 0) (hz4 : m4 ≠ 0)
    (h12 : m1 ≠ m2) (h13 : m1 ≠ m3) (h14 : m1 ≠ m4)
    (h23 : m2 ≠ m3) (h24 : m2 ≠ m4) (h34 : m3 ≠ m4) :
    (summaries_from_documents
      [⟨"a", "t1", s1, 10000⟩, ⟨"b", "t1", s2, 10000⟩,
       ⟨"c", "t1", s3, 10000⟩, ⟨"d", "t1", s4, 10000⟩] tm).accumulated = 40000 ∧
    monthsWithData (summaries_from_documents
      [⟨"a", "t1", s1, 10000⟩, ⟨"b", "t1", s2, 10000⟩,
       ⟨"c", "t1", s3, 10000⟩, ⟨"d", "t1", s4, 10000⟩] tm).monthly_totals tm = 4 ∧
    (summaries_from_documents
      [⟨"a", "t1", s1, 10000⟩, ⟨"b", "t1", s2, 10000⟩,
       ⟨"c", "t1", s3, 10000⟩, ⟨"d", "t1", s4, 10000⟩] tm).forecast = 120000 ∧
    compute_state (utilization_ratio 40000 120000 DEFAULT_ANNUAL_LIMIT)
      DEFAULT_WARN_THRESHOLD DEFAULT_CRITICAL_THRESHOLD = STATE_EXCEEDED := by
  have hmt : buildMonthlyTotals
      [⟨"a", "t1", s1, 10000⟩, ⟨"b", "t1", s2, 10000⟩,
       ⟨"c", "t1", s3, 10000⟩, ⟨"d", "t1", s4, 10000⟩] =
      [(m1, 10000), (m2, 10000), (m3, 10000), (m4, 10000)] := by
    simp [buildMonthlyTotals, h1, h2, h3, h4, hz1, hz2, hz3, hz4,
      bumpMonth, h12, h13, h14, h23, h24, h34]
  have hstate : compute_state (utilization_ratio 40000 120000 DEFAULT_ANNUAL_LIMIT)
      DEFAULT_WARN_THRESHOLD DEFAULT_CRITICAL_THRESHOLD = STATE_EXCEEDED := by
    have hr : utilization_ratio 40000 120000 DEFAULT_ANNUAL_LIMIT = 40/27 := by
      norm_num [utilization_ratio, DEFAULT_ANNUAL_LIMIT]
    rw [hr]
    norm_num [compute_state, DEFAULT_WARN_THRESHOLD, DEFAULT_CRITICAL_THRESHOLD,
      abs_le, STATE_EXCEEDED]
  refine ⟨?_, ?_, ?_, hstate⟩
  · simp [summaries_from_documents, hmt]
    norm_num
  · simp [summaries_from_documents, hmt, monthsWithData]
  · simp [summaries_from_documents, hmt, monthsWithData]
    norm_num

/-- Witness for C7 at months 1–4 with dates `2024-01` .. `2024-04`. -/
theorem c7_forty_thousand_scenario_witness :
    (summaries_from_documents
      [⟨"a", "t1", "2024-01", 10000⟩, ⟨"b", "t1", "2024-02", 10000⟩,
       ⟨"c", "t1", "2024-03", 10000⟩, ⟨"d", "t1", "2024-04", 10000⟩] 6).accumulated
        = 40000 ∧
    monthsWithData (summaries_from_documents
      [⟨"a", "t1", "2024-01", 10000⟩, ⟨"b", "t1", "2024-02", 10000⟩,
       ⟨"c", "t1", "2024-03", 10000⟩, ⟨"d", "t1", "2024-04", 10000⟩] 6).monthly_totals 6
        = 4 ∧
    (summaries_from_documents
      [⟨"a", "t1", "2024-01", 10000⟩, ⟨"b", "t1", "2024-02", 10000⟩,
       ⟨"c", "t1", "2024-03", 10000⟩, ⟨"d", "t1", "2024-04", 10000⟩] 6).forecast
        = 120000 ∧
    compute_state (utilization_ratio 40000 120000 DEFAULT_ANNUAL_LIMIT)
      DEFAULT_WARN_THRESHOLD DEFAULT_CRITICAL_THRESHOLD = STATE_EXCEEDED :=
  c7_forty_thousand_scenario "2024-01" "2024-02" "2024-03" "2024-04"
    1 2 3 4 6 (by decide) (by decide) (by decide) (by decide)
    (by decide) (by decide) (by decide) (by decide)
    (by decide) (by decide) (by decide) (by decide) (by decide) (by decide)

/-! ### Claim C1: what the dashboard months entries hold -/

/-- C1, counterexample: with a single January document of amount 10,
`months[1]` (month 2) holds `0`, not the cumulative-through-February
total `10`; the sequence `10, 0, ...` is also not non-decreasing. -/
theorem c1_months_not_cumulative :
    ((dashboard ⟨[⟨"d1", "t1", "2024-01-15", 10⟩], emptyConfigs, emptySnaps⟩
        2024 "t1" 6).1.months)[0]? = some (1, 10) ∧
    ((dashboard ⟨[⟨"d1", "t1", "2024-01-15", 10⟩], emptyConfigs, emptySnaps⟩
        2024 "t1" 6).1.months)[1]? = some (2, 0) ∧
    cumThrough (buildMonthlyTotals (collect_documents
        [⟨"d1", "t1", "2024-01-15", 10⟩] "t1" 2024 none)) 2 = 10 ∧
    ((2 : ℚ) ≠ 0 → (0 : ℚ) ≠ 10) := by
  have hdocs : collect_documents [⟨"d1", "t1", "2024-01-15", 10⟩] "t1" 2024 none
      = [⟨"d1", "t1", "2024-01-15", 10⟩] := by decide
  have hmt : buildMonthlyTotals [⟨"d1", "t1", "2024-01-15", 10⟩]
      = [(1, (10 : ℚ))] := by decide
  have hr2 : List.range' 1 2 = [1, 2] := by decide
  have h0 : (List.range' 1 12)[0]? = some 1 := by decide
  have h1 : (List.range' 1 12)[1]? = some 2 := by decide
  refine ⟨?_, ?_, ?_, fun _ => by norm_num⟩
  · simp [dashboard, build_dashboard_payload, summaries_from_documents, hdocs, hmt,
      h0, mtGet, List.lookup]
  · simp [dashboard, build_dashboard_payload, summaries_from_documents, hdocs, hmt,
      h1, mtGet, List.lookup]
  · simp [hdocs, hmt, cumThrough, hr2, mtGet, List.lookup]

/-- C1, amended: each `months` entry of the dashboard payload holds the
month's own delta — the sum of the gross amounts of the collected
documents dated in exactly that month — not the cumulative total. -/
theorem c1_months_hold_monthly_deltas (st : SysState) (year : Nat)
    (tenant_id : String) (tm m : Nat) (hm1 : 1 ≤ m) (hm12 : m ≤ 12) :
    ((dashboard st year tenant_id tm).1.months)[m - 1]? =
      some (m, monthDelta (collect_documents st.docs tenant_id year none) m) := by
  have hlt : m - 1 < 12 := by omega
  have hidx : (List.range' 1 12)[m - 1]? = some (1 + 1 * (m - 1)) :=
    List.getElem?_range' 1 1 hlt
  have hm : 1 + 1 * (m - 1) = m := by omega
  rw [hm] at hidx
  have hget : mtGet (buildMonthlyTotals
      (collect_documents st.docs tenant_id year none)) m =
      monthDelta (collect_documents st.docs tenant_id year none) m :=
    mtGet_buildMonthlyTotals _ m (by omega)
  simp [dashboard, build_dashboard_payload, summaries_from_documents,
    hidx, hget]

/-- Witness for the amended C1: the February entry of the January-only
dashboard is `(2, 0)`. -/
theorem c1_months_hold_monthly_deltas_witness :
    ((dashboard ⟨[⟨"d1", "t1", "2024-01-15", 10⟩], emptyConfigs, emptySnaps⟩
        2024 "t1" 6).1.months)[2 - 1]? =
      some (2, monthDelta (collect_documents
        [⟨"d1", "t1", "2024-01-15", 10⟩] "t1" 2024 none) 2) :=
  c1_months_hold_monthly_deltas
    ⟨[⟨"d1", "t1", "2024-01-15", 10⟩], emptyConfigs, emptySnaps⟩
    2024 "t1" 6 2 (by decide) (by decide)

/-! ### Characterization of a successful recalculation run -/

theorem build_dashboard_payload_snd (cs : ConfigStore) (year : Nat)
    (mt : List (Nat × ℚ)) (a f : ℚ) :
    (build_dashboard_payload cs year mt a f).2 = (get_limit_config cs year).2 := rfl

/-- A run of `recalc_limits` (no write failure) reduces to its pieces:
the dashboard built from the aggregation, the updated stores, and the
single `LIMITS_RECALCULATED` event. -/
theorem recalc_limits_eq (st : SysState) (tenant_id : String) (year : Nat)
    (doc_ids : Option (List String)) (tm : Nat) :
    recalc_limits st tenant_id year doc_ids tm =
      (.ok (build_dashboard_payload (get_limit_config st.configs year).2 year
          (summaries_from_documents
            (collect_documents st.docs tenant_id year doc_ids) tm).monthly_totals
          (summaries_from_documents
            (collect_documents st.docs tenant_id year doc_ids) tm).accumulated
          (summaries_from_documents
            (collect_documents st.docs tenant_id year doc_ids) tm).forecast).1,
       ⟨st.docs,
        (build_dashboard_payload (get_limit_config st.configs year).2 year
          (summaries_from_documents
            (collect_documents st.docs tenant_id year doc_ids) tm).monthly_totals
          (summaries_from_documents
            (collect_documents st.docs tenant_id year doc_ids) tm).accumulated
          (summaries_from_documents
            (collect_documents st.docs tenant_id year doc_ids) tm).forecast).2,
        (persist_snapshots none tenant_id year
          (summaries_from_documents
            (collect_documents st.docs tenant_id year doc_ids) tm).monthly_totals
          (summaries_from_documents
            (collect_documents st.docs tenant_id year doc_ids) tm).forecast
          (get_limit_config st.configs year).1 st.snaps).store⟩,
       [⟨EVENT_LIMITS_RECALCULATED, tenant_id, year,
          (build_dashboard_payload (get_limit_config st.configs year).2 year
            (summaries_from_documents
              (collect_documents st.docs tenant_id year doc_ids) tm).monthly_totals
            (summaries_from_documents
              (collect_documents st.docs tenant_id year doc_ids) tm).accumulated
            (summaries_from_documents
              (collect_documents st.docs tenant_id year doc_ids) tm).forecast).1.state,
          (build_dashboard_payload (get_limit_config st.configs year).2 year
            (summaries_from_documents
              (collect_documents st.docs tenant_id year doc_ids) tm).monthly_totals
            (summaries_from_documents
              (collect_documents st.docs tenant_id year doc_ids) tm).accumulated
            (summaries_from_documents
              (collect_documents st.docs tenant_id year doc_ids) tm).forecast).1.accumulated⟩]) := by
  simp only [recalc_limits, recalc_limits_with]
  rw [persist_snapshots_none_failedAt]

/-- The run leaves the document source untouched and lazily defaults the
policy row. -/
theorem recalc_limits_components (st : SysState) (tenant_id : String)
    (year : Nat) (doc_ids : Option (List String)) (tm : Nat) :
    (recalc_limits st tenant_id year doc_ids tm).2.1.docs = st.docs ∧
    (recalc_limits st tenant_id year doc_ids tm).2.1.configs =
      (get_limit_config st.configs year).2 := by
  rw [recalc_limits_eq]
  exact ⟨rfl, by rw [build_dashboard_payload_snd, get_limit_config_stable]⟩

/-- Pointwise view of the snapshot store after a successful run. -/
theorem recalc_snaps_pointwise (st : SysState) (tenant_id : String)
    (year : Nat) (doc_ids : Option (List String)) (tm : Nat)
    (t : String) (y m : Nat) :
    (recalc_limits st tenant_id year doc_ids tm).2.1.snaps t y m =
      if t = tenant_id ∧ y = year ∧ 1 ≤ m ∧ m ≤ 12
      then some (rowAt
        (buildMonthlyTotals (collect_documents st.docs tenant_id year doc_ids))
        (summaries_from_documents
          (collect_documents st.docs tenant_id year doc_ids) tm).forecast
        (get_limit_config st.configs year).1 m)
      else st.snaps t y m := by
  rw [recalc_limits_eq]
  exact persist_snapshots_store tenant_id year _ _ _ st.snaps t y m

/-! ### Claim C3: idempotence of recalculation -/

/-- C3: running the recalculation twice with the same stored documents
and policy leaves every snapshot row exactly as the first run wrote it:
the second run overwrites each of the 12 rows with identical
accumulated, forecast and state, and touches nothing else. -/
theorem c3_recalc_idempotent (st : SysState) (tenant_id : String)
    (year : Nat) (doc_ids : Option (List String)) (tm : Nat)
    (t : String) (y m : Nat) :
    (recalc_limits (recalc_limits st tenant_id year doc_ids tm).2.1
        tenant_id year doc_ids tm).2.1.snaps t y m =
      (recalc_limits st tenant_id year doc_ids tm).2.1.snaps t y m := by
  obtain ⟨hdocs, hconfigs⟩ :=
    recalc_limits_components st tenant_id year doc_ids tm
  rw [recalc_snaps_pointwise ((recalc_limits st tenant_id year doc_ids tm).2.1)
      tenant_id year doc_ids tm t y m]
  rw [hdocs, hconfigs]
  have hcfg1 : (get_limit_config (get_limit_config st.configs year).2 year).1 =
      (get_limit_config st.configs year).1 := by
    rw [get_limit_config_stable]
  rw [hcfg1]
  rw [recalc_snaps_pointwise st tenant_id year doc_ids tm t y m]
  by_cases hc : t = tenant_id ∧ y = year ∧ 1 ≤ m ∧ m ≤ 12
  · rw [if_pos hc, if_pos hc]
  · rw [if_neg hc, if_neg hc]

/-! ### Claim C9: shape of one recalculation run -/

theorem mem_of_mem_collect {s : DocStore} {tenant_id : String} {year : Nat}
    {doc_ids : Option (List String)} {d : Doc}
    (h : d ∈ collect_documents s tenant_id year doc_ids) : d ∈ s := by
  simp only [collect_documents] at h
  exact List.mem_of_mem_filter h

/-- C9: a recalculation run writes exactly the rows for months 1..12 of
its (tenant, year) — everything else is untouched — every one of the 12
rows exists afterwards, all 12 carry the same forecast, and (for
non-negative document amounts) the stored accumulated value is
non-decreasing in the month. -/
theorem c9_run_invariants (st : SysState) (tenant_id : String) (year : Nat)
    (doc_ids : Option (List String)) (tm : Nat)
    (hpos : ∀ d ∈ st.docs, 0 ≤ d.gross_amount) :
    (∀ (t : String) (y m : Nat), ¬(t = tenant_id ∧ y = year ∧ 1 ≤ m ∧ m ≤ 12) →
      (recalc_limits st tenant_id year doc_ids tm).2.1.snaps t y m =
        st.snaps t y m) ∧
    (∀ m, 1 ≤ m → m ≤ 12 → ∃ row,
      (recalc_limits st tenant_id year doc_ids tm).2.1.snaps tenant_id year m =
        some row) ∧
    (∀ m m2 row row2, 1 ≤ m → m ≤ m2 → m2 ≤ 12 →
      (recalc_limits st tenant_id year doc_ids tm).2.1.snaps tenant_id year m =
        some row →
      (recalc_limits st tenant_id year doc_ids tm).2.1.snaps tenant_id year m2 =
        some row2 →
      row.forecast = row2.forecast ∧ row.accumulated ≤ row2.accumulated) := by
  refine ⟨?_, ?_, ?_⟩
  · intro t y m h
    rw [recalc_snaps_pointwise, if_neg h]
  · intro m h1 h2
    rw [recalc_snaps_pointwise, if_pos ⟨rfl, rfl, h1, h2⟩]
    exact ⟨_, rfl⟩
  · intro m m2 row row2 h1 hle h12 hr hr2
    rw [recalc_snaps_pointwise, if_pos ⟨rfl, rfl, h1, by omega⟩] at hr
    rw [recalc_snaps_pointwise, if_pos ⟨rfl, rfl, by omega, h12⟩] at hr2
    obtain rfl := Option.some.inj hr
    obtain rfl := Option.some.inj hr2
    refine ⟨rfl, ?_⟩
    refine cumThrough_mono _ ?_ m m2 hle
    intro k hk
    rw [mtGet_buildMonthlyTotals _ k (by omega)]
    exact monthDelta_nonneg _ _ fun d hd => hpos d (mem_of_mem_collect hd)

/-- Witness for C9 on a one-document store. -/
theorem c9_run_invariants_witness :
    (∀ d ∈ ([⟨"d1", "t1", "2024-01-15", 10⟩] : List Doc), 0 ≤ d.gross_amount) ∧
    ((∀ (t : String) (y m : Nat), ¬(t = "t1" ∧ y = 2024 ∧ 1 ≤ m ∧ m ≤ 12) →
      (recalc_limits ⟨[⟨"d1", "t1", "2024-01-15", 10⟩], emptyConfigs, emptySnaps⟩
        "t1" 2024 none 6).2.1.snaps t y m =
        (⟨[⟨"d1", "t1", "2024-01-15", 10⟩], emptyConfigs, emptySnaps⟩ :
          SysState).snaps t y m) ∧
    (∀ m, 1 ≤ m → m ≤ 12 → ∃ row,
      (recalc_limits ⟨[⟨"d1", "t1", "2024-01-15", 10⟩], emptyConfigs, emptySnaps⟩
        "t1" 2024 none 6).2.1.snaps "t1" 2024 m = some row) ∧
    (∀ m m2 row row2, 1 ≤ m → m ≤ m2 → m2 ≤ 12 →
      (recalc_limits ⟨[⟨"d1", "t1", "2024-01-15", 10⟩], emptyConfigs, emptySnaps⟩
        "t1" 2024 none 6).2.1.snaps "t1" 2024 m = some row →
      (recalc_limits ⟨[⟨"d1", "t1", "2024-01-15", 10⟩], emptyConfigs, emptySnaps⟩
        "t1" 2024 none 6).2.1.snaps "t1" 2024 m2 = some row2 →
      row.forecast = row2.forecast ∧ row.accumulated ≤ row2.accumulated)) :=
  have hpos : ∀ d ∈ ([⟨"d1", "t1", "2024-01-15", 10⟩] : List Doc),
      0 ≤ d.gross_amount := by
    intro d hd
    rw [List.mem_singleton] at hd
    subst hd
    norm_num
  ⟨hpos, c9_run_invariants
    ⟨[⟨"d1", "t1", "2024-01-15", 10⟩], emptyConfigs, emptySnaps⟩
    "t1" 2024 none 6 hpos⟩

/-! ### Claim C6: field-change event for a missing document -/

/-- C6: a field-change event whose doc_id matches no stored document
returns the ignored/not-found record without raising, performs no
recalculation (even a failing store could not be touched), writes
nothing and emits no event. -/
theorem c6_missing_document_ignored (failAt : Option Nat) (st : SysState)
    (doc_id : String) (todayIso : String) (tm : Nat) (hne : doc_id ≠ "")
    (hfind : findOne st.docs doc_id = none) :
    fields_updated failAt st (some doc_id) todayIso tm =
      .ok (⟨"ignored", some "document not found", none⟩, st, []) := by
  simp [fields_updated, hne, hfind]

/-- Witness for C6 on an empty document store. -/
theorem c6_missing_document_ignored_witness :
    ("nope" : String) ≠ "" ∧
    findOne ([] : DocStore) "nope" = none ∧
    fields_updated none ⟨[], emptyConfigs, emptySnaps⟩ (some "nope")
        "2026-10-12" 6 =
      .ok (⟨"ignored", some "document not found", none⟩,
        ⟨[], emptyConfigs, emptySnaps⟩, []) :=
  ⟨by decide, rfl,
    c6_missing_document_ignored none ⟨[], emptyConfigs, emptySnaps⟩ "nope"
      "2026-10-12" 6 (by decide) rfl⟩

/-! ### Claim C5: a write failure during persistence -/

/-- What a recalculation run does when the snapshot write for month `k`
fails: the error propagates (no dashboard, no event), and — because
`db.get_conn` opens the connection with `autocommit=True` — the rows for
months `1..k-1` written before the failure stay committed while months
`k..12` keep their previous contents. -/
theorem recalc_fail_spec (st : SysState) (tenant_id : String) (year : Nat)
    (doc_ids : Option (List String)) (tm k : Nat)
    (hk1 : 1 ≤ k) (hk12 : k ≤ 12) :
    (recalc_limits_with (some k) st tenant_id year doc_ids tm).1 = .error k ∧
    (recalc_limits_with (some k) st tenant_id year doc_ids tm).2.2 = [] ∧
    ∀ (t : String) (y m : Nat),
      (recalc_limits_with (some k) st tenant_id year doc_ids tm).2.1.snaps t y m =
        if t = tenant_id ∧ y = year ∧ 1 ≤ m ∧ m < k
        then some (rowAt
          (buildMonthlyTotals (collect_documents st.docs tenant_id year doc_ids))
          (summaries_from_documents
            (collect_documents st.docs tenant_id year doc_ids) tm).forecast
          (get_limit_config st.configs year).1 m)
        else st.snaps t y m := by
  obtain ⟨h1, h2⟩ := persist_snapshots_fail tenant_id year
    (summaries_from_documents
      (collect_documents st.docs tenant_id year doc_ids) tm).monthly_totals
    (summaries_from_documents
      (collect_documents st.docs tenant_id year doc_ids) tm).forecast
    (get_limit_config st.configs year).1 st.snaps k hk1 hk12
  simp only [recalc_limits_with, h1]
  exact ⟨trivial, trivial, h2⟩

/-- C5, counterexample: on an initially empty snapshot store, a run
whose write for month 7 fails leaves the row for month 3 committed and
the row for month 8 absent — neither all 12 rows nor none. -/
theorem c5_partial_write_on_failure :
    ((recalc_limits_with (some 7) ⟨[], emptyConfigs, emptySnaps⟩
        "t1" 2024 none 6).2.1.snaps "t1" 2024 3).isSome = true ∧
    ((recalc_limits_with (some 7) ⟨[], emptyConfigs, emptySnaps⟩
        "t1" 2024 none 6).2.1.snaps "t1" 2024 8) = none ∧
    (recalc_limits_with (some 7) ⟨[], emptyConfigs, emptySnaps⟩
        "t1" 2024 none 6).1 = .error 7 := by
  obtain ⟨he, hev, hs⟩ := recalc_fail_spec ⟨[], emptyConfigs, emptySnaps⟩
    "t1" 2024 none 6 7 (by omega) (by omega)
  refine ⟨?_, ?_, he⟩
  · rw [hs "t1" 2024 3, if_pos ⟨rfl, rfl, by omega, by omega⟩]
    rfl
  · rw [hs "t1" 2024 8, if_neg]
    · rfl
    · rintro ⟨-, -, -, hlt⟩
      omega

/-- C5, amended: a snapshot-write failure at month `k` aborts the rest
of the run and propagates the error to the caller with no event
emitted, but the write is not transactional: the rows for months
`1..k-1` remain committed (per-statement autocommit) while months
`k..12` are untouched. -/
theorem c5_failure_aborts_with_partial_commit (st : SysState)
    (tenant_id : String) (year : Nat) (doc_ids : Option (List String))
    (tm k : Nat) (hk1 : 1 ≤ k) (hk12 : k ≤ 12) :
    (recalc_limits_with (some k) st tenant_id year doc_ids tm).1 = .error k ∧
    (recalc_limits_with (some k) st tenant_id year doc_ids tm).2.2 = [] ∧
    ∀ (t : String) (y m : Nat),
      (recalc_limits_with (some k) st tenant_id year doc_ids tm).2.1.snaps t y m =
        if t = tenant_id ∧ y = year ∧ 1 ≤ m ∧ m < k
        then some (rowAt
          (buildMonthlyTotals (collect_documents st.docs tenant_id year doc_ids))
          (summaries_from_documents
            (collect_documents st.docs tenant_id year doc_ids) tm).forecast
          (get_limit_config st.configs year).1 m)
        else st.snaps t y m :=
  recalc_fail_spec st tenant_id year doc_ids tm k hk1 hk12

/-- Witness for the amended C5: failure at month 7 on an empty store. -/
theorem c5_failure_aborts_with_partial_commit_witness :
    (1 ≤ 7 ∧ 7 ≤ 12) ∧
    ((recalc_limits_with (some 7) ⟨[], emptyConfigs, emptySnaps⟩
        "t2" 2025 none 6).1 = .error 7 ∧
    (recalc_limits_with (some 7) ⟨[], emptyConfigs, emptySnaps⟩
        "t2" 2025 none 6).2.2 = [] ∧
    ∀ (t : String) (y m : Nat),
      (recalc_limits_with (some 7) ⟨[], emptyConfigs, emptySnaps⟩
          "t2" 2025 none 6).2.1.snaps t y m =
        if t = "t2" ∧ y = 2025 ∧ 1 ≤ m ∧ m < 7
        then some (rowAt
          (buildMonthlyTotals (collect_documents [] "t2" 2025 none))
          (summaries_from_documents (collect_documents [] "t2" 2025 none) 6).forecast
          (get_limit_config emptyConfigs 2025).1 m)
        else emptySnaps t y m) :=
  ⟨⟨by omega, by omega⟩,
    c5_failure_aborts_with_partial_commit ⟨[], emptyConfigs, emptySnaps⟩
      "t2" 2025 none 6 7 (by omega) (by omega)⟩

/-! ### Claim C4: simulation side effects -/

theorem build_dashboard_payload_fst_congr (cs cs2 : ConfigStore) (year : Nat)
    (mt : List (Nat × ℚ)) (a f : ℚ)
    (h : (get_limit_config cs year).1 = (get_limit_config cs2 year).1) :
    (build_dashboard_payload cs year mt a f).1 =
      (build_dashboard_payload cs2 year mt a f).1 := by
  simp only [build_dashboard_payload]
  rw [h]

/-- C4, counterexample: when no policy row exists for the year,
`simulate` (through `_get_limit_config`) inserts the default policy row
— a write to the policy store, contradicting "no side effect on ...
policy". -/
theorem c4_simulate_inserts_default_policy :
    (simulate ⟨[], emptyConfigs, emptySnaps⟩ "t1" 2024 [] none 6).2.configs 2024 ≠
      (⟨[], emptyConfigs, emptySnaps⟩ : SysState).configs 2024 := by
  simp [simulate, build_dashboard_payload, get_limit_config, emptyConfigs]

/-- C4, amended: `simulate` never writes to the snapshot store or the
document source and emits no event, and a subsequent dashboard fetch
for any (tenant, year) returns exactly what it returned before the
simulation; its only persistent effect is that `_get_limit_config` may
lazily insert the default policy row for the simulated year when none
exists yet. -/
theorem c4_simulate_frame (st : SysState) (tenant_id : String) (year : Nat)
    (adjustments : List SimAdjustment) (doc_ids : Option (List String))
    (tm : Nat) (t2 : String) (y2 tm2 : Nat) :
    (simulate st tenant_id year adjustments doc_ids tm).2.snaps = st.snaps ∧
    (simulate st tenant_id year adjustments doc_ids tm).2.docs = st.docs ∧
    (dashboard (simulate st tenant_id year adjustments doc_ids tm).2 y2 t2 tm2).1 =
      (dashboard st y2 t2 tm2).1 ∧
    (∀ y, y ≠ year →
      (simulate st tenant_id year adjustments doc_ids tm).2.configs y =
        st.configs y) ∧
    ((simulate st tenant_id year adjustments doc_ids tm).2.configs year =
        st.configs year ∨
      (st.configs year = none ∧
        (simulate st tenant_id year adjustments doc_ids tm).2.configs year =
          some ⟨DEFAULT_ANNUAL_LIMIT, DEFAULT_WARN_THRESHOLD,
            DEFAULT_CRITICAL_THRESHOLD⟩)) := by
  have hconf : (simulate st tenant_id year adjustments doc_ids tm).2.configs =
      (get_limit_config st.configs year).2 := rfl
  have hdocs : (simulate st tenant_id year adjustments doc_ids tm).2.docs =
      st.docs := rfl
  refine ⟨rfl, rfl, ?_, ?_, ?_⟩
  · have hfst : (get_limit_config ((get_limit_config st.configs year).2) y2).1 =
        (get_limit_config st.configs y2).1 := by
      by_cases h : y2 = year
      · subst h
        rw [get_limit_config_stable]
      · exact get_limit_config_fst_congr _ _ _
          (get_limit_config_snd_other st.configs year y2 h)
    simp only [dashboard]
    rw [hdocs, hconf]
    exact build_dashboard_payload_fst_congr _ _ y2 _ _ _ hfst
  · intro y hy
    rw [hconf]
    exact get_limit_config_snd_other st.configs year y hy
  · rw [hconf]
    rcases hx : st.configs year with _ | row
    · right
      refine ⟨rfl, ?_⟩
      simp [get_limit_config, hx]
    · left
      simp [get_limit_config, hx]

/-! ### Claim C10: event-triggered recalculation is id-filtered -/

theorem sum_map_filter_split (l : List Doc) (p : Doc → Bool) (f : Doc → ℚ) :
    (l.map f).sum =
      ((l.filter p).map f).sum + ((l.filter fun x => !(p x)).map f).sum := by
  induction l with
  | nil => simp
  | cons d rest ih =>
      by_cases h : p d
      · simp [List.filter_cons, h, ih]
        ring
      · simp [List.filter_cons, h, ih]
        ring

/-- Filtering the Mongo query to the single id `i` is the same as the
unfiltered tenant/year query restricted to documents with id `i`. -/
theorem collect_documents_single_id (store : DocStore) (tenant_id : String)
    (year : Nat) (i : String) :
    collect_documents store tenant_id year (some [i]) =
      (collect_documents store tenant_id year none).filter fun d => d.id == i := by
  simp only [collect_documents]
  rw [List.filter_filter]
  congr 1
  funext d
  have hb : (d.id == i) = decide (d.id = i) := by
    by_cases hd : d.id = i <;> simp [hd]
  simp [hb, Bool.and_comm, Bool.and_left_comm, Bool.and_assoc]

theorem summaries_accumulated_eq (docs : List Doc) (tm : Nat) :
    (summaries_from_documents docs tm).accumulated =
      (docs.map countedAmount).sum := by
  simp [summaries_from_documents, sum_buildMonthlyTotals]

/-- C10, counterexample: with a second same-tenant same-year document of
amount 0, the event path (restricted to `d1`) and the unfiltered path
compute the SAME accumulated total, so "compute different accumulated
totals" does not hold for every tenant with other documents. -/
theorem c10_totals_can_coincide :
    (⟨"d2", "t1", "2024-04-10", 0⟩ : Doc) ∈
      collect_documents [⟨"d1", "t1", "2024-03-10", 100⟩,
        ⟨"d2", "t1", "2024-04-10", 0⟩] "t1" 2024 none ∧
    ("d2" : String) ≠ "d1" ∧
    (summaries_from_documents (collect_documents
        [⟨"d1", "t1", "2024-03-10", 100⟩, ⟨"d2", "t1", "2024-04-10", 0⟩]
        "t1" 2024 (some ["d1"])) 6).accumulated =
      (summaries_from_documents (collect_documents
        [⟨"d1", "t1", "2024-03-10", 100⟩, ⟨"d2", "t1", "2024-04-10", 0⟩]
        "t1" 2024 none) 6).accumulated := by
  have h1 : collect_documents
      [⟨"d1", "t1", "2024-03-10", 100⟩, ⟨"d2", "t1", "2024-04-10", 0⟩]
      "t1" 2024 (some ["d1"]) = [⟨"d1", "t1", "2024-03-10", 100⟩] := by decide
  have h2 : collect_documents
      [⟨"d1", "t1", "2024-03-10", 100⟩, ⟨"d2", "t1", "2024-04-10", 0⟩]
      "t1" 2024 none =
      [⟨"d1", "t1", "2024-03-10", 100⟩, ⟨"d2", "t1", "2024-04-10", 0⟩] := by decide
  have h3 : buildMonthlyTotals [⟨"d1", "t1", "2024-03-10", 100⟩]
      = [(3, (100 : ℚ))] := by decide
  have h4 : buildMonthlyTotals
      [⟨"d1", "t1", "2024-03-10", 100⟩, ⟨"d2", "t1", "2024-04-10", 0⟩]
      = [(3, (100 : ℚ)), (4, 0)] := by decide
  refine ⟨by decide, by decide, ?_⟩
  simp [summaries_from_documents, h1, h2, h3, h4]

/-- C10, amended: the event handler resolves the document, restricts the
fetch to that single id (the Mongo filter becomes "id = i" on top of the
tenant/year query), and the persisted rows are computed from the
filtered documents only; consequently the event-triggered run and the
unfiltered dashboard path compute different accumulated totals whenever
the tenant's other documents of that year contribute a nonzero net
amount. -/
theorem c10_event_recalc_uses_only_changed_doc (st : SysState) (i : String)
    (d : Doc) (todayIso : String) (tm year : Nat) (tenant_id : String)
    (hne : i ≠ "") (hfind : findOne st.docs i = some d)
    (hyear : digitsToNat ((splitOnChar '-'
      (if d.date = "" then todayIso else d.date).toList).headD []) = some year)
    (htid : tenant_id = if d.tenant_id = "" then "default" else d.tenant_id) :
    collect_documents st.docs tenant_id year (some [i]) =
      (collect_documents st.docs tenant_id year none).filter
        (fun x => x.id == i) ∧
    (∃ dres, (recalc_limits st tenant_id year (some [i]) tm).1 = .ok dres ∧
      fields_updated none st (some i) todayIso tm =
        .ok (⟨"recalculated", none, some dres.state⟩,
          (recalc_limits st tenant_id year (some [i]) tm).2.1,
          (recalc_limits st tenant_id year (some [i]) tm).2.2)) ∧
    (∀ m, 1 ≤ m → m ≤ 12 →
      (recalc_limits st tenant_id year (some [i]) tm).2.1.snaps tenant_id year m =
        some (rowAt
          (buildMonthlyTotals (collect_documents st.docs tenant_id year (some [i])))
          (summaries_from_documents
            (collect_documents st.docs tenant_id year (some [i])) tm).forecast
          (get_limit_config st.configs year).1 m)) ∧
    ((((collect_documents st.docs tenant_id year none).filter
        (fun x => !(x.id == i))).map countedAmount).sum ≠ 0 →
      (summaries_from_documents
          (collect_documents st.docs tenant_id year (some [i])) tm).accumulated ≠
        (summaries_from_documents
          (collect_documents st.docs tenant_id year none) tm).accumulated) := by
  subst htid
  refine ⟨collect_documents_single_id st.docs _ year i, ?_, ?_, ?_⟩
  · refine ⟨(build_dashboard_payload (get_limit_config st.configs year).2 year
      (summaries_from_documents (collect_documents st.docs
        (if d.tenant_id = "" then "default" else d.tenant_id) year
        (some [i])) tm).monthly_totals
      (summaries_from_documents (collect_documents st.docs
        (if d.tenant_id = "" then "default" else d.tenant_id) year
        (some [i])) tm).accumulated
      (summaries_from_documents (collect_documents st.docs
        (if d.tenant_id = "" then "default" else d.tenant_id) year
        (some [i])) tm).forecast).1, ?_, ?_⟩
    · rw [recalc_limits_eq]
    · simp only [fields_updated, hfind, hyear, if_neg hne]
      have hrw : recalc_limits_with none st
          (if d.tenant_id = "" then "default" else d.tenant_id) year
          (some [i]) tm =
          recalc_limits st (if d.tenant_id = "" then "default" else d.tenant_id)
            year (some [i]) tm := rfl
      rw [hrw, recalc_limits_eq]
  · intro m h1 h2
    rw [recalc_snaps_pointwise, if_pos ⟨rfl, rfl, h1, h2⟩]
  · intro hnz heq
    rw [summaries_accumulated_eq, summaries_accumulated_eq,
      collect_documents_single_id,
      sum_map_filter_split (collect_documents st.docs _ year none)
        (fun x => x.id == i) countedAmount] at heq
    apply hnz
    linarith

/-- Document store used by the C10 witness: the changed document `d1`
plus another same-tenant, same-year document with a nonzero amount. -/
def c10Store : DocStore :=
  [⟨"d1", "t1", "2024-03-10", 100⟩, ⟨"d2", "t1", "2024-04-10", 50⟩]

/-- Witness for the amended C10 on a two-document store. -/
theorem c10_event_recalc_uses_only_changed_doc_witness :
    findOne c10Store "d1" = some ⟨"d1", "t1", "2024-03-10", 100⟩ ∧
    (collect_documents c10Store "t1" 2024 (some ["d1"]) =
      (collect_documents c10Store "t1" 2024 none).filter
        (fun x => x.id == "d1") ∧
    (∃ dres, (recalc_limits ⟨c10Store, emptyConfigs, emptySnaps⟩ "t1" 2024
        (some ["d1"]) 6).1 = .ok dres ∧
      fields_updated none ⟨c10Store, emptyConfigs, emptySnaps⟩ (some "d1")
          "2026-10-12" 6 =
        .ok (⟨"recalculated", none, some dres.state⟩,
          (recalc_limits ⟨c10Store, emptyConfigs, emptySnaps⟩ "t1" 2024
            (some ["d1"]) 6).2.1,
          (recalc_limits ⟨c10Store, emptyConfigs, emptySnaps⟩ "t1" 2024
            (some ["d1"]) 6).2.2)) ∧
    (∀ m, 1 ≤ m → m ≤ 12 →
      (recalc_limits ⟨c10Store, emptyConfigs, emptySnaps⟩ "t1" 2024
          (some ["d1"]) 6).2.1.snaps "t1" 2024 m =
        some (rowAt
          (buildMonthlyTotals (collect_documents c10Store "t1" 2024 (some ["d1"])))
          (summaries_from_documents
            (collect_documents c10Store "t1" 2024 (some ["d1"])) 6).forecast
          (get_limit_config emptyConfigs 2024).1 m)) ∧
    ((((collect_documents c10Store "t1" 2024 none).filter
        (fun x => !(x.id == "d1"))).map countedAmount).sum ≠ 0 →
      (summaries_from_documents
          (collect_documents c10Store "t1" 2024 (some ["d1"])) 6).accumulated ≠
        (summaries_from_documents
          (collect_documents c10Store "t1" 2024 none) 6).accumulated)) :=
  ⟨rfl, c10_event_recalc_uses_only_changed_doc
    ⟨c10Store, emptyConfigs, emptySnaps⟩ "d1" ⟨"d1", "t1", "2024-03-10", 100⟩
    "2026-10-12" 6 2024 "t1" (by decide) rfl (by decide) (by decide)⟩

end Limits
